import Mathlib

/-!
Verification of the vgchartz game-data scraper (`game_data.py`) against its
natural-language specification.  The Python source is shallowly embedded:
each Python function becomes a Lean definition over explicit inputs (HTTP
responses, parsed HTML fragments), side effects (sleeps, attempts) are
recorded in an explicit trace, and Python exceptions become an `Except`
error value.
-/

namespace VGChartz

instance {ε α : Type} [DecidableEq ε] [DecidableEq α] :
    DecidableEq (Except ε α) := fun a b =>
  match a, b with
  | Except.ok x, Except.ok y =>
    if h : x = y then Decidable.isTrue (by rw [h])
    else Decidable.isFalse (by simp [h])
  | Except.error x, Except.error y =>
    if h : x = y then Decidable.isTrue (by rw [h])
    else Decidable.isFalse (by simp [h])
  | Except.ok _, Except.error _ =>
    Decidable.isFalse (fun hh => Except.noConfusion hh)
  | Except.error _, Except.ok _ =>
    Decidable.isFalse (fun hh => Except.noConfusion hh)

/-! ### Python string primitives used by the source -/

/-- Python whitespace characters recognised by `str.strip()` and `\s`. -/
def isPySpace (c : Char) : Bool :=
  c = ' ' || c = '\t' || c = '\n' || c = '\r' || c = '\x0b' || c = '\x0c'

/-- ASCII decimal digit, as matched by `\d` in the source's regexes and by
`int()`. -/
def isPyDigit (c : Char) : Bool :=
  '0' ≤ c && c ≤ '9'

/-- `str.strip()`: drop leading and trailing whitespace. -/
def pyStrip (s : String) : String :=
  ⟨((s.data.dropWhile isPySpace).reverse.dropWhile isPySpace).reverse⟩

/-- Numeric value of a digit list (most significant first). -/
def digitsVal (cs : List Char) : Nat :=
  cs.foldl (fun acc c => 10 * acc + (c.toNat - '0'.toNat)) 0

/-- `int(s)` on a decimal string: strips surrounding whitespace, allows one
optional sign, then requires a non-empty run of digits; returns `none` where
Python raises `ValueError`. -/
def parseIntPy (s : String) : Option Int :=
  let core := ((s.data.dropWhile isPySpace).reverse.dropWhile isPySpace).reverse
  let signed : List Char → Option Int := fun ds =>
    if ds ≠ [] ∧ ds.all isPyDigit then some (digitsVal ds) else none
  match core with
  | '+' :: ds => signed ds
  | '-' :: ds => (signed ds).map (fun n => -n)
  | ds => signed ds

/-- Strip a literal prefix from a character list, returning the remainder. -/
def dropLit : List Char → List Char → Option (List Char)
  | [], rest => some rest
  | _ :: _, [] => none
  | p :: ps, c :: cs => if c = p then dropLit ps cs else none

/-- `s.replace(pat, rep)` scanning left to right over non-overlapping
occurrences, with enough fuel to consume the whole input (the source only
calls it with the fixed non-empty literal `"Read the review"`). -/
def replaceFuel (pat rep : List Char) : Nat → List Char → List Char
  | 0, cs => cs
  | _ + 1, [] => []
  | fuel + 1, c :: cs =>
    match dropLit pat (c :: cs) with
    | some rest => rep ++ replaceFuel pat rep fuel rest
    | none => c :: replaceFuel pat rep fuel cs

/-- Python `str.replace` on strings. -/
def pyReplace (s pat rep : String) : String :=
  ⟨replaceFuel pat.data rep.data (s.data.length + 1) s.data⟩

/-! ### Fetcher (`fetch_url`)

The server is modelled as a function from attempt number (1-based) to the
HTTP response delivered on that attempt.  `fetch_url` loops
`for attempt in range(1, max_retries + 1)`, sleeping a jitter before each
request; on 200 it returns the body, on 429 it reads the `Retry-After`
header (default `30`), converts it with `int(...)` and sleeps that long,
and on any other status it breaks out of the loop; falling off the loop
returns `None`.  The trace records the number of requests actually issued
and each retry-after sleep, in order; an uncaught Python exception
(`int` on a non-numeric header, or `time.sleep` on a negative duration)
is an `Except.error`. -/

/-- A Python exception escaping a modelled function. -/
inductive PyError where
  | valueError
  deriving DecidableEq, Repr

/-- One HTTP response: status code, optional `Retry-After` header, body. -/
structure Response where
  status : Nat
  retryAfter : Option String
  body : String
  deriving DecidableEq, Repr

/-- Outcome of `fetch_url`: final result (`Except.error` = exception escaped,
`.ok none` = returned `None`, `.ok (some t)` = returned text `t`), the number
of HTTP requests issued, and the retry-after sleeps performed, in order. -/
structure FetchResult where
  result : Except PyError (Option String)
  attempts : Nat
  retrySleeps : List Int
  deriving DecidableEq, Repr

/-- `resp.headers.get("Retry-After", 30)` followed by `int(...)`:
an absent header defaults to the integer 30, a present header is parsed by
`int`, raising `ValueError` (modelled as `.error`) when non-numeric. -/
def retryAfterVal (header : Option String) : Except PyError Int :=
  match header with
  | none => Except.ok 30
  | some s =>
    match parseIntPy s with
    | some n => Except.ok n
    | none => Except.error PyError.valueError

/-- What one iteration of the `fetch_url` loop does with the response it
received. -/
inductive StepAction where
  | success (body : String)
  | throttled (n : Int)
  | raise
  | hardFail
  deriving DecidableEq, Repr

/-- Classify a response the way the `fetch_url` loop body branches on it:
200 returns the body; 429 parses `Retry-After` (raising on a non-numeric
header, and `time.sleep` raising on a negative duration) and otherwise
sleeps `n` and retries; any other status breaks out of the loop. -/
def classify (r : Response) : StepAction :=
  if r.status = 200 then StepAction.success r.body
  else if r.status = 429 then
    match retryAfterVal r.retryAfter with
    | Except.error _ => StepAction.raise
    | Except.ok n => if n < 0 then StepAction.raise else StepAction.throttled n
  else StepAction.hardFail

/-- The loop of `fetch_url`, from attempt number `attempt` with `remaining`
loop iterations left. -/
def fetchFrom (resp : Nat → Response) : Nat → Nat → FetchResult
  | _, 0 => { result := Except.ok none, attempts := 0, retrySleeps := [] }
  | attempt, remaining + 1 =>
    match classify (resp attempt) with
    | StepAction.success b =>
      { result := Except.ok (some b), attempts := 1, retrySleeps := [] }
    | StepAction.raise =>
      { result := Except.error PyError.valueError, attempts := 1,
        retrySleeps := [] }
    | StepAction.hardFail =>
      { result := Except.ok none, attempts := 1, retrySleeps := [] }
    | StepAction.throttled n =>
      let rest := fetchFrom resp (attempt + 1) remaining
      { result := rest.result, attempts := rest.attempts + 1,
        retrySleeps := n :: rest.retrySleeps }

/-- `fetch_url(url, max_retries)`: run the retry loop from attempt 1. -/
def fetchUrl (resp : Nat → Response) (maxRetries : Nat := 5) : FetchResult :=
  fetchFrom resp 1 maxRetries

/-! ### Count Discovery (`get_total_results`)

The fetched page is abstracted to the list of `<th>` string contents in
document order (`none` overall = fetch failure).  The source finds the first
`th` whose string matches the regex `Results:\s*\([\d,]+\)`, re-runs the
regex on the whitespace-stripped text (`get_text(strip=True)`), strips the
commas from the captured group and converts with `int(...)`, a `ValueError`
being swallowed by the surrounding `try` (yielding `None`). -/

/-- Character class `[\d,]`. -/
def isDigitComma (c : Char) : Bool := isPyDigit c || c = ','

/-- Attempt the regex `Results:\s*\(([\d,]+)\)` anchored at the head of the
list; on success return the captured group. -/
def matchAt (cs : List Char) : Option (List Char) :=
  match dropLit "Results:".data cs with
  | none => none
  | some r1 =>
    match r1.dropWhile isPySpace with
    | '(' :: r3 =>
      match r3.takeWhile isDigitComma, r3.dropWhile isDigitComma with
      | [], _ => none
      | g, ')' :: _ => some g
      | _, _ => none
    | _ => none

/-- `re.search` for the pattern: try each start position left to right. -/
def searchResults : List Char → Option (List Char)
  | [] => none
  | c :: cs =>
    match matchAt (c :: cs) with
    | some g => some g
    | none => searchResults cs

/-- The `text=re.compile(...)` filter used by `soup.find("th", ...)`. -/
def thMatches (s : String) : Bool :=
  (searchResults s.data).isSome

/-- From a matched `th`: `get_text(strip=True)`, re-search the pattern, strip
commas from the group and parse with `int`, swallowing `ValueError`. -/
def extractTotal (s : String) : Option Nat :=
  match searchResults (pyStrip s).data with
  | none => none
  | some g =>
    match parseIntPy ⟨g.filter (fun c => c ≠ ',')⟩ with
    | some n => some n.toNat
    | none => none

/-- `get_total_results`, given the fetch outcome for the page-1 URL as the
list of `th` strings (or `none` on fetch failure). -/
def getTotalResults (fetched : Option (List String)) : Option Nat :=
  match fetched with
  | none => none
  | some ths =>
    match ths.find? thMatches with
    | none => none
    | some s => extractTotal s

/-! ### Page Scraper (`scrape_page`)

A table cell is abstracted to its `get_text(strip=True)` rendering together
with the alt attributes (possibly absent) of its `img` descendants in
document order; a table row is its list of `td` cells.  A fetched page is
abstracted to the rows of the table enclosing the first `th` containing
`"Pos"`, when that table exists. -/

/-- One `td` cell: its stripped text and the alt attributes of its images. -/
structure Cell where
  text : String
  imgs : List (Option String)
  deriving DecidableEq, Repr

/-- Out-of-range placeholder; `scrape_page` never reads it because every
index it uses is below the checked bound of 9 cells. -/
def dummyCell : Cell := ⟨"", []⟩

/-- The filter `alt=lambda x: x and x != "Boxart Missing"`: the attribute
must be present, truthy (non-empty) and not the placeholder. -/
def imgAltOk : Option String → Bool
  | some a => decide (a ≠ "") && decide (a ≠ "Boxart Missing")
  | none => false

/-- `cell.find("img", alt=...)` followed by `img.get("alt", "")`: first
image whose alt passes the filter. -/
def findConsoleImg (imgs : List (Option String)) : Option String :=
  match imgs.find? imgAltOk with
  | some (some a) => some a
  | _ => none

/-- The console-detection loop over candidate cell indices `[2, 3]`: first
matching image wins, searching cell 3 only when cell 2 has no match. -/
def consoleAlt (cells : List Cell) : Option String :=
  match findConsoleImg (cells.getD 2 dummyCell).imgs with
  | some a => some a
  | none => findConsoleImg (cells.getD 3 dummyCell).imgs

/-- The final console value: stripped alt of the first matching image, with
`if not console: console = "Unknown"` turning both "no match" and a
whitespace-only alt into the sentinel. -/
def consoleField (cells : List Cell) : String :=
  match consoleAlt cells with
  | none => "Unknown"
  | some a => if pyStrip a = "" then "Unknown" else pyStrip a

/-- The game name: cell 2 text with every occurrence of the boilerplate
`"Read the review"` removed, then stripped. -/
def gameField (cells : List Cell) : String :=
  pyStrip (pyReplace (cells.getD 2 dummyCell).text "Read the review" "")

/-- One output row of the scraper (the 8 columns of the spreadsheet). -/
structure GameRecord where
  console : String
  game : String
  publisher : String
  totalShipped : String
  totalSales : String
  releaseDate : String
  lastUpdate : String
  genre : String
  deriving DecidableEq, Repr

/-- The per-row body of the `scrape_page` loop: fewer than 9 cells means the
row is skipped (`continue`); otherwise the record is built from the fixed
cell positions, with the caller-supplied genre token. -/
def scrapeRow (genre : String) (cells : List Cell) : Option GameRecord :=
  if cells.length < 9 then none
  else some {
    console := consoleField cells
    game := gameField cells
    publisher := (cells.getD 4 dummyCell).text
    totalShipped := (cells.getD 5 dummyCell).text
    totalSales := (cells.getD 6 dummyCell).text
    releaseDate := (cells.getD 7 dummyCell).text
    lastUpdate := (cells.getD 8 dummyCell).text
    genre := genre }

/-- A fetched results page: the `tr` rows (header first) of the table that
encloses the first `th` containing `"Pos"`, or `none` when no such `th` (or
no enclosing table) exists. -/
structure PageHtml where
  posTable : Option (List (List Cell))
  deriving Repr

/-- `scrape_page(url, genre)`: fetch failure or a missing results table
yields `[]`; otherwise iterate the data rows (skipping the header row),
dropping malformed rows. -/
def scrapePage (fetched : Option PageHtml) (genre : String) :
    List GameRecord :=
  match fetched with
  | none => []
  | some p =>
    match p.posTable with
    | none => []
    | some trs => (trs.drop 1).filterMap (scrapeRow genre)

/-! ### Orchestrator (`main`) -/

/-- `RESULTS_PER_PAGE = 200`. -/
def RESULTS_PER_PAGE : Nat := 200

/-- `total_pages = math.ceil(total / RESULTS_PER_PAGE)`, as the exact
ceiling of the quotient on naturals. -/
def totalPages (total : Nat) : Nat :=
  (total + (RESULTS_PER_PAGE - 1)) / RESULTS_PER_PAGE

/-- `range(1, total_pages + 1)`: the dispatched page numbers. -/
def pageNumbers (total : Nat) : List Nat :=
  (List.range (totalPages total)).map (· + 1)

/-- One unit of work submitted to the thread pool. -/
structure PageTask where
  url : String
  genre : String
  pageNumber : Nat
  deriving DecidableEq, Repr

/-- The tasks submitted for a genre: one per page number, with the page
appended to the base URL as `&page=<n>`. -/
def pageTasks (genre baseUrl : String) (total : Nat) : List PageTask :=
  (pageNumbers total).map
    (fun p => { url := baseUrl ++ "&page=" ++ toString p, genre := genre,
                pageNumber := p })

/-- The per-genre body of the `main` loop, with the network abstracted:
`totals` is what `get_total_results` returns for a genre and
`pageRows genre p` what page `p`'s scrape contributes.  An absent total
skips the genre (`continue`); otherwise every page in `1..totalPages` is
scraped and the results concatenated. -/
def processGenre (totals : String → Option Nat)
    (pageRows : String → Nat → List GameRecord) (genre : String) :
    List GameRecord :=
  match totals genre with
  | none => []
  | some t => (pageNumbers t).flatMap (pageRows genre)

/-- The full genre loop: genre contributions accumulate in discovery
order. -/
def runAll (totals : String → Option Nat)
    (pageRows : String → Nat → List GameRecord) (genres : List String) :
    List GameRecord :=
  genres.flatMap (processGenre totals pageRows)

/-- `pd.concat([df_existing, df_current], ignore_index=True)`: row-wise
concatenation of the persisted table with the newly scraped rows. -/
def mergeTables (existing scraped : List GameRecord) : List GameRecord :=
  existing ++ scraped

end VGChartz

/-! ### Helper lemmas -/

namespace VGChartz

theorem classify_throttled (r : Response) (n : Int) (h429 : r.status = 429)
    (hval : retryAfterVal r.retryAfter = Except.ok n) (hn : 0 ≤ n) :
    classify r = StepAction.throttled n := by
  unfold classify
  rw [h429, hval]
  norm_num
  omega

theorem fetchFrom_all429 (resp : Nat → Response) (d : Nat → Int) :
    ∀ k a, (∀ i, a ≤ i → i < a + k →
        (resp i).status = 429 ∧
        retryAfterVal (resp i).retryAfter = Except.ok (d i) ∧ 0 ≤ d i) →
      fetchFrom resp a k =
        { result := Except.ok none, attempts := k,
          retrySleeps := (List.range k).map (fun j => d (a + j)) } := by
  intro k
  induction k with
  | zero => intro a _; simp [fetchFrom]
  | succ m ih =>
    intro a h
    have ha := h a (le_refl a) (by omega)
    have hclass := classify_throttled (resp a) (d a) ha.1 ha.2.1 ha.2.2
    have hrest := ih (a + 1) (fun i h1 h2 => h i (by omega) (by omega))
    have hmap : d a :: (List.range m).map (fun j => d (a + 1 + j)) =
        (List.range (m + 1)).map (fun j => d (a + j)) := by
      rw [List.range_succ_eq_map, List.map_cons, List.map_map]
      refine congrArg₂ List.cons (by norm_num) ?_
      have hfun : (fun j => d (a + 1 + j)) =
          ((fun j => d (a + j)) ∘ Nat.succ) := by
        funext j
        simp only [Function.comp_apply]
        congr 1
        omega
      rw [hfun]
    simp only [fetchFrom, hclass, hrest, hmap]

theorem scrapeRow_none_of_short (genre : String) (cells : List Cell)
    (h : cells.length < 9) : scrapeRow genre cells = none := by
  unfold scrapeRow
  rw [if_pos h]

theorem totalPages_le_iff (t m : Nat) : totalPages t ≤ m ↔ t ≤ 200 * m := by
  have hlt : totalPages t ≤ m ↔ (t + 199) / 200 < m + 1 := by
    unfold totalPages RESULTS_PER_PAGE
    omega
  rw [hlt, Nat.div_lt_iff_lt_mul (by norm_num)]
  omega

end VGChartz

/-! ### The claims -/

/-- C1: when every attempt yields HTTP 429 with a well-formed (or absent)
`Retry-After`, `fetch_url` sleeps the header-supplied duration — defaulting
to 30 when the header is absent — before each retry, issues exactly
`maxRetries` requests, and then returns the failure sentinel `None` with no
further retries. -/
theorem c1_fetch_429_retry_ceiling (resp : Nat → VGChartz.Response)
    (d : Nat → Int) (maxRetries : Nat)
    (h : ∀ i, 1 ≤ i → i ≤ maxRetries →
        (resp i).status = 429 ∧
        VGChartz.retryAfterVal (resp i).retryAfter = Except.ok (d i) ∧
        0 ≤ d i) :
    VGChartz.retryAfterVal none = Except.ok 30 ∧
    (VGChartz.fetchUrl resp maxRetries).result = Except.ok none ∧
    (VGChartz.fetchUrl resp maxRetries).attempts = maxRetries ∧
    (VGChartz.fetchUrl resp maxRetries).retrySleeps =
      (List.range maxRetries).map (fun j => d (1 + j)) := by
  have hh := VGChartz.fetchFrom_all429 resp d maxRetries 1
    (fun i h1 h2 => h i h1 (by omega))
  refine ⟨rfl, ?_, ?_, ?_⟩ <;> simp [VGChartz.fetchUrl, hh]

/-- Witness for C1: a server answering 429 with `Retry-After: 7` on all five
default attempts produces five attempts, five sleeps of 7, and `None`. -/
theorem c1_witness :
    (VGChartz.fetchUrl (fun _ => ⟨429, some "7", ""⟩) 5).result =
        Except.ok none ∧
      (VGChartz.fetchUrl (fun _ => ⟨429, some "7", ""⟩) 5).attempts = 5 ∧
      (VGChartz.fetchUrl (fun _ => ⟨429, some "7", ""⟩) 5).retrySleeps =
        [7, 7, 7, 7, 7] := by
  have h := c1_fetch_429_retry_ceiling (fun _ => ⟨429, some "7", ""⟩)
    (fun _ => 7) 5 (by
      intro i h1 h2
      refine ⟨rfl, rfl, ?_⟩
      norm_num)
  exact ⟨h.2.1, h.2.2.1, by rw [h.2.2.2]; rfl⟩

/-- C2: merging a persisted table of `R` rows with `N` newly scraped rows
yields exactly `R + N` rows: the original rows first, each unchanged and in
original order, then the new rows in collection order; in particular no
deduplication happens, so re-running with identical rows doubles the
count. -/
theorem c2_merge_append (e s : List VGChartz.GameRecord) :
    (VGChartz.mergeTables e s).length = e.length + s.length ∧
    (∀ i, i < e.length →
      (VGChartz.mergeTables e s).get? i = e.get? i) ∧
    (∀ j, j < s.length →
      (VGChartz.mergeTables e s).get? (e.length + j) = s.get? j) ∧
    (VGChartz.mergeTables e e).length = 2 * e.length := by
  refine ⟨List.length_append e s, ?_, ?_, by simp [VGChartz.mergeTables]; omega⟩
  · intro i hi
    simp only [List.get?_eq_getElem?, VGChartz.mergeTables]
    exact List.getElem?_append_left hi
  · intro j hj
    simp only [List.get?_eq_getElem?, VGChartz.mergeTables]
    rw [List.getElem?_append_right (by omega)]
    congr 1
    omega

/-- Witness for C2: merging one persisted row with one new duplicate row
keeps both, the persisted one first. -/
theorem c2_witness :
    (VGChartz.mergeTables [⟨"PS2", "G", "P", "1m", "2m", "04", "18", "Action"⟩]
        [⟨"PS2", "G", "P", "1m", "2m", "04", "18", "Action"⟩]).length = 2 ∧
      (VGChartz.mergeTables [⟨"PS2", "G", "P", "1m", "2m", "04", "18", "Action"⟩]
        [⟨"PS2", "G", "P", "1m", "2m", "04", "18", "Action"⟩]).get? 0 =
        some ⟨"PS2", "G", "P", "1m", "2m", "04", "18", "Action"⟩ := by
  have h := c2_merge_append
    [⟨"PS2", "G", "P", "1m", "2m", "04", "18", "Action"⟩]
    [⟨"PS2", "G", "P", "1m", "2m", "04", "18", "Action"⟩]
  exact ⟨h.1, by rw [h.2.1 0 (by decide)]; rfl⟩

/-- C3: on a first response whose status is neither 200 nor 429,
`fetch_url` breaks out of the loop at once: one attempt, no retry-after
sleep, failure sentinel `None`. -/
theorem c3_non200_non429_single_attempt (resp : Nat → VGChartz.Response)
    (maxRetries : Nat) (hk : 1 ≤ maxRetries)
    (h200 : (resp 1).status ≠ 200) (h429 : (resp 1).status ≠ 429) :
    VGChartz.fetchUrl resp maxRetries =
      { result := Except.ok none, attempts := 1, retrySleeps := [] } := by
  obtain ⟨m, rfl⟩ : ∃ m, maxRetries = m + 1 :=
    ⟨maxRetries - 1, by omega⟩
  have hclass : VGChartz.classify (resp 1) = VGChartz.StepAction.hardFail := by
    unfold VGChartz.classify
    rw [if_neg h200, if_neg h429]
  simp [VGChartz.fetchUrl, VGChartz.fetchFrom, hclass]

/-- Witness for C3: a 404 on the first attempt ends the fetch immediately. -/
theorem c3_witness :
    VGChartz.fetchUrl (fun _ => ⟨404, none, ""⟩) 5 =
      { result := Except.ok none, attempts := 1, retrySleeps := [] } :=
  c3_non200_non429_single_attempt (fun _ => ⟨404, none, ""⟩) 5
    (by decide) (by decide) (by decide)

/-- C4 (code bug evidence): a 429 whose `Retry-After` header is present but
non-numeric makes `int(retry_after)` raise `ValueError`, which escapes
`fetch_url` to its caller instead of the documented `None` failure
sentinel. -/
theorem c4_nonnumeric_retry_after_raises :
    VGChartz.fetchUrl (fun _ => ⟨429, some "soon", ""⟩) 5 =
      { result := Except.error VGChartz.PyError.valueError, attempts := 1,
        retrySleeps := [] } := by
  decide

/-- C5: a page whose header label is `Results: (12,345)` yields the total
12345 (grouping commas stripped) — likewise `Results: (7)` among other
headers; a fetch failure, a page with no matching label, and a matching but
unparsable label (`Results: (,)`, whose captured group strips to the empty
string so `int` raises) all yield `None`. -/
theorem c5_count_discovery :
    VGChartz.getTotalResults none = none ∧
    VGChartz.getTotalResults (some ["Results: (12,345)"]) = some 12345 ∧
    VGChartz.getTotalResults (some ["Pos", "Results: (7)"]) = some 7 ∧
    (∀ ths, (∀ s ∈ ths, VGChartz.thMatches s = false) →
      VGChartz.getTotalResults (some ths) = none) ∧
    VGChartz.getTotalResults (some ["Results: (,)"]) = none := by
  refine ⟨rfl, by decide, by decide, ?_, by decide⟩
  intro ths h
  have hfind : ths.find? VGChartz.thMatches = none :=
    List.find?_eq_none.mpr (fun x hx => by rw [h x hx]; decide)
  simp [VGChartz.getTotalResults, hfind]

/-- Witness for C5: a page whose only header is `Hello` matches nothing, so
count discovery returns `None`. -/
theorem c5_witness :
    VGChartz.getTotalResults (some ["Hello"]) = none :=
  c5_count_discovery.2.2.2.1 ["Hello"] (by decide)

/-- C6: the page count is the ceiling of the total over the page size 200
(least `m` with `total ≤ 200 * m`, equal to `⌈total / 200⌉`), `total = 450`
gives 3 pages, and exactly one `PageTask` is dispatched per page number
`1 .. pageCount`, carrying its number in the URL. -/
theorem c6_page_count_ceiling (t : Nat) :
    (∀ m, VGChartz.totalPages t ≤ m ↔ t ≤ 200 * m) ∧
    VGChartz.totalPages t = ⌈(t : ℚ) / 200⌉₊ ∧
    VGChartz.totalPages 450 = 3 ∧
    (∀ genre baseUrl,
      (VGChartz.pageTasks genre baseUrl t).length = VGChartz.totalPages t ∧
      ∀ i, i < VGChartz.totalPages t →
        (VGChartz.pageTasks genre baseUrl t).get? i =
          some { url := baseUrl ++ "&page=" ++ toString (i + 1),
                 genre := genre, pageNumber := i + 1 }) := by
  have hle : ∀ m : Nat, (t : ℚ) / 200 ≤ m ↔ t ≤ 200 * m := by
    intro m
    rw [div_le_iff₀ (by norm_num : (0 : ℚ) < 200)]
    constructor
    · intro hq
      have : t ≤ m * 200 := by exact_mod_cast hq
      omega
    · intro hn
      exact_mod_cast (show (t : Nat) ≤ m * 200 by omega)
  refine ⟨VGChartz.totalPages_le_iff t, ?_, by decide, ?_⟩
  · apply le_antisymm
    · rw [VGChartz.totalPages_le_iff]
      exact (hle _).mp (Nat.le_ceil _)
    · rw [Nat.ceil_le]
      exact (hle _).mpr ((VGChartz.totalPages_le_iff t _).mp le_rfl)
  · intro genre baseUrl
    constructor
    · simp [VGChartz.pageTasks, VGChartz.pageNumbers]
    · intro i hi
      simp [VGChartz.pageTasks, VGChartz.pageNumbers, List.getElem?_map,
        List.getElem?_range, hi]

/-- Witness for C6: 450 results at 200 per page dispatch 3 tasks, with
page 2's URL ending in `&page=2`. -/
theorem c6_witness :
    VGChartz.totalPages 450 = 3 ∧
      (VGChartz.pageTasks "Action" "base" 450).length = 3 ∧
      (VGChartz.pageTasks "Action" "base" 450).get? 1 =
        some { url := "base&page=2", genre := "Action", pageNumber := 2 } := by
  have h := c6_page_count_ceiling 450
  have htasks := h.2.2.2 "Action" "base"
  refine ⟨h.2.2.1, ?_, ?_⟩
  · rw [htasks.1]; decide
  · rw [htasks.2 1 (by rw [h.2.2.1]; omega)]; rfl

/-- C7: a data row of at least 9 cells whose name cell reads
`Super Game Read the review` is emitted with game `Super Game`; its console
is the sentinel `Unknown` when no candidate cell holds a matching image, and
the (stripped) alt text of the first matching image otherwise. -/
theorem c7_game_name_and_console (genre : String)
    (cells : List VGChartz.Cell) (h9 : 9 ≤ cells.length)
    (hname : (cells.getD 2 VGChartz.dummyCell).text =
      "Super Game Read the review") :
    ∃ r, VGChartz.scrapeRow genre cells = some r ∧
      r.game = "Super Game" ∧
      (VGChartz.consoleAlt cells = none → r.console = "Unknown") ∧
      (∀ a, VGChartz.consoleAlt cells = some a → VGChartz.pyStrip a ≠ "" →
        r.console = VGChartz.pyStrip a) := by
  have hrow : VGChartz.scrapeRow genre cells = some {
      console := VGChartz.consoleField cells
      game := VGChartz.gameField cells
      publisher := (cells.getD 4 VGChartz.dummyCell).text
      totalShipped := (cells.getD 5 VGChartz.dummyCell).text
      totalSales := (cells.getD 6 VGChartz.dummyCell).text
      releaseDate := (cells.getD 7 VGChartz.dummyCell).text
      lastUpdate := (cells.getD 8 VGChartz.dummyCell).text
      genre := genre } := by
    unfold VGChartz.scrapeRow
    rw [if_neg (by omega)]
  refine ⟨_, hrow, ?_, ?_, ?_⟩
  · show VGChartz.gameField cells = "Super Game"
    unfold VGChartz.gameField
    rw [hname]
    decide
  · intro hnone
    show VGChartz.consoleField cells = "Unknown"
    unfold VGChartz.consoleField
    rw [hnone]
  · intro a ha hne
    show VGChartz.consoleField cells = VGChartz.pyStrip a
    unfold VGChartz.consoleField
    rw [ha]
    exact if_neg hne

/-- Witness for C7: a 9-cell row with the boilerplate name, one
`Boxart Missing` image and one alt-less image yields game `Super Game` and
console `Unknown`. -/
theorem c7_witness :
    ∃ r, VGChartz.scrapeRow "Action"
        [⟨"", []⟩, ⟨"", []⟩,
         ⟨"Super Game Read the review", [some "Boxart Missing", none]⟩,
         ⟨"", []⟩, ⟨"Pub", []⟩, ⟨"1m", []⟩, ⟨"2m", []⟩, ⟨"04", []⟩,
         ⟨"18", []⟩] = some r ∧
      r.game = "Super Game" ∧ r.console = "Unknown" := by
  obtain ⟨r, hr, hg, hcn, _⟩ := c7_game_name_and_console "Action"
    [⟨"", []⟩, ⟨"", []⟩,
     ⟨"Super Game Read the review", [some "Boxart Missing", none]⟩,
     ⟨"", []⟩, ⟨"Pub", []⟩, ⟨"1m", []⟩, ⟨"2m", []⟩, ⟨"04", []⟩, ⟨"18", []⟩]
    (by decide) (by decide)
  exact ⟨r, hr, hg, hcn (by decide)⟩

/-- C8: a row with fewer than 9 cells contributes no record and does not
disturb the remaining rows; a fetch failure or a page without the
`Pos`-marked table makes `scrape_page` return the empty list rather than
fail its caller. -/
theorem c8_malformed_degrade :
    (∀ genre cells, cells.length < 9 →
      VGChartz.scrapeRow genre cells = none) ∧
    (∀ genre, VGChartz.scrapePage none genre = []) ∧
    (∀ genre, VGChartz.scrapePage (some ⟨none⟩) genre = []) ∧
    (∀ genre header pre bad post, bad.length < 9 →
      VGChartz.scrapePage (some ⟨some (header :: (pre ++ bad :: post))⟩)
          genre =
        VGChartz.scrapePage (some ⟨some (header :: (pre ++ post))⟩) genre) := by
  refine ⟨VGChartz.scrapeRow_none_of_short, fun _ => rfl, fun _ => rfl, ?_⟩
  intro genre header pre bad post h
  show ((header :: (pre ++ bad :: post)).drop 1).filterMap _ =
    ((header :: (pre ++ post)).drop 1).filterMap _
  simp only [List.drop_one, List.tail_cons, List.filterMap_append,
    List.filterMap_cons, VGChartz.scrapeRow_none_of_short genre bad h]

/-- Witness for C8: inserting a 1-cell row between two malformed-table
variants leaves the scrape of a concrete page unchanged (here, empty). -/
theorem c8_witness :
    VGChartz.scrapePage
        (some ⟨some [[], [VGChartz.dummyCell], [VGChartz.dummyCell]]⟩)
        "Action" =
      VGChartz.scrapePage (some ⟨some [[], [VGChartz.dummyCell]]⟩)
        "Action" :=
  c8_malformed_degrade.2.2.2 "Action" [] [] [VGChartz.dummyCell]
    [[VGChartz.dummyCell]] (by decide)

/-- C9: a genre whose discovered total is 0 produces 0 pages, dispatches no
page task, contributes no rows, and the run continues with the remaining
genres exactly as if it were absent from the list. -/
theorem c9_zero_total_genre (totals : String → Option Nat)
    (pageRows : String → Nat → List VGChartz.GameRecord) (g : String)
    (h : totals g = some 0) :
    VGChartz.totalPages 0 = 0 ∧
    VGChartz.pageNumbers 0 = [] ∧
    VGChartz.processGenre totals pageRows g = [] ∧
    (∀ pre post, VGChartz.runAll totals pageRows (pre ++ g :: post) =
      VGChartz.runAll totals pageRows (pre ++ post)) := by
  have hzero : VGChartz.processGenre totals pageRows g = [] := by
    unfold VGChartz.processGenre
    rw [h]
    rfl
  refine ⟨by decide, rfl, hzero, ?_⟩
  intro pre post
  unfold VGChartz.runAll
  rw [List.flatMap_append, List.flatMap_append, List.flatMap_cons, hzero,
    List.nil_append]

/-- Witness for C9: with every total 0 and no page rows, dropping the genre
`Action` from the middle of a run changes nothing. -/
theorem c9_witness :
    VGChartz.runAll (fun _ => some 0) (fun _ _ => []) ["A", "Action", "B"] =
      VGChartz.runAll (fun _ => some 0) (fun _ _ => []) ["A", "B"] :=
  (c9_zero_total_genre (fun _ => some 0) (fun _ _ => []) "Action"
    rfl).2.2.2 ["A"] ["B"]

/-- C10: every record the scraper emits has a non-empty console: a first
matching image whose alt strips to the empty string still yields the
sentinel `Unknown`, never the empty string. -/
theorem c10_console_never_empty (genre : String)
    (cells : List VGChartz.Cell) (r : VGChartz.GameRecord)
    (h : VGChartz.scrapeRow genre cells = some r) :
    r.console ≠ "" ∧
    (∀ a, VGChartz.consoleAlt cells = some a → VGChartz.pyStrip a = "" →
      r.console = "Unknown") := by
  unfold VGChartz.scrapeRow at h
  by_cases hlen : cells.length < 9
  · rw [if_pos hlen] at h
    exact absurd h (by simp)
  · rw [if_neg hlen] at h
    have hc : r.console = VGChartz.consoleField cells := by
      cases h
      rfl
    constructor
    · rw [hc]
      unfold VGChartz.consoleField
      cases halt : VGChartz.consoleAlt cells with
      | none => decide
      | some a =>
        show (if VGChartz.pyStrip a = "" then "Unknown"
          else VGChartz.pyStrip a) ≠ ""
        by_cases he : VGChartz.pyStrip a = ""
        · rw [if_pos he]; decide
        · rw [if_neg he]; exact he
    · intro a ha he
      rw [hc]
      unfold VGChartz.consoleField
      rw [ha]
      exact if_pos he

/-- Witness for C10: a row whose only candidate image has a whitespace-only
alt is emitted with console `Unknown`, not the empty string. -/
theorem c10_witness :
    VGChartz.scrapeRow "Action"
        [⟨"", []⟩, ⟨"", []⟩, ⟨"Super Game", [some " "]⟩, ⟨"", []⟩,
         ⟨"P", []⟩, ⟨"1m", []⟩, ⟨"2m", []⟩, ⟨"04", []⟩, ⟨"18", []⟩] =
      some ⟨"Unknown", "Super Game", "P", "1m", "2m", "04", "18",
        "Action"⟩ ∧
    ("Unknown" : String) ≠ "" := by
  refine ⟨by decide, ?_⟩
  exact (c10_console_never_empty "Action"
    [⟨"", []⟩, ⟨"", []⟩, ⟨"Super Game", [some " "]⟩, ⟨"", []⟩,
     ⟨"P", []⟩, ⟨"1m", []⟩, ⟨"2m", []⟩, ⟨"04", []⟩, ⟨"18", []⟩]
    ⟨"Unknown", "Super Game", "P", "1m", "2m", "04", "18", "Action"⟩
    (by decide)).1
